import Mathlib

/-!
Verification development for the REDMANE FastAPI metadata service.

The definitions below are a shallow embedding of the application code in
`src/app/api/routes.py` and `src/app/schemas/schemas.py`:

* the row-to-tree assembler loops of `get_patients_metadata` (patients →
  patient metadata, and the nested samples → sample metadata pass) and of
  `get_samples_per_patient`;
* the select-then-update-or-insert logic of `update_metadata` over the
  `datasets_metadata` table, together with a faithful model of the
  attribute lookup `update.raw_file_size` on the `MetadataUpdate` schema;
* the query string / parameter-list construction of `get_datasets` and
  `get_patients`;
* the `FileCreate.validate_file_type` pydantic validator;
* the not-found / store-failure control flow of `get_dataset_with_metadata`.

Database rows coming out of a SQL `LEFT JOIN` are modelled with `Option`
columns; Python truthiness tests `if row[i]:` on a nullable integer id
column are modelled as "the column is non-null and non-zero"; Python
exceptions are modelled with `Except` / explicit outcome types.
-/

namespace Redmane

/-! ## Row-to-tree assembler of `get_patients_metadata` (routes.py 97-207)

A row of the first query (routes.py 108-130):
`p.id, p.project_id, p.ext_patient_id, p.ext_patient_url, p.public_patient_id,
 pm.id, pm.key, pm.value`, where the `pm.*` columns are nullable because of
the `LEFT JOIN patients_metadata`. -/

structure PatientRow where
  pid : Nat
  projectId : Nat
  extPatientId : String
  extPatientUrl : String
  publicPatientId : Option String
  pmId : Option Nat
  pmKey : Option String
  pmValue : Option String
deriving DecidableEq

/-- One entry of `current_patient['metadata']` (routes.py 153-158). -/
structure PatientMetaE where
  id : Nat
  patient_id : Nat
  key : Option String
  value : Option String
deriving DecidableEq

/-- One entry of a sample's `metadata` list (routes.py 193-198). -/
structure SampleMetaE where
  id : Nat
  sample_id : Nat
  key : Option String
  value : Option String
deriving DecidableEq

/-- The `current_sample` dict of the nested loop of `get_patients_metadata`
(routes.py 185-191): a sample without an embedded patient. -/
structure SampleWoAcc where
  id : Nat
  patient_id : Nat
  ext_sample_id : String
  ext_sample_url : String
  metadata : List SampleMetaE
deriving DecidableEq

/-- The `current_patient` dict (routes.py 142-150). -/
structure PatientAcc where
  id : Nat
  project_id : Nat
  ext_patient_id : String
  ext_patient_url : String
  public_patient_id : Option String
  samples : List SampleWoAcc
  metadata : List PatientMetaE
deriving DecidableEq

/-- Python truthiness of `row[5]` (`pm.id`): non-null and non-zero. -/
def pmTruthy (row : PatientRow) : Bool :=
  match row.pmId with
  | none => false
  | some n => n != 0

/-- The fresh `current_patient` dict built at routes.py 142-150. -/
def newPatientAcc (row : PatientRow) : PatientAcc :=
  { id := row.pid
    project_id := row.projectId
    ext_patient_id := row.extPatientId
    ext_patient_url := row.extPatientUrl
    public_patient_id := row.publicPatientId
    samples := []
    metadata := [] }

/-- The guarded metadata append `if row[5]: current_patient['metadata'].append(...)`
(routes.py 152-158). -/
def addPatientMeta (c : PatientAcc) (row : PatientRow) : PatientAcc :=
  match row.pmId with
  | none => c
  | some mid =>
    if mid = 0 then c
    else { c with metadata :=
            c.metadata ++ [{ id := mid, patient_id := row.pid,
                             key := row.pmKey, value := row.pmValue }] }

/-- The loop of routes.py 136-158 from the state where `current_patient = c`:
on an id change the accumulator is sealed (appended to the output) and a fresh
one is started; the final accumulator is sealed after the loop (routes.py
160-161). -/
def assemblePatientsAux (c : PatientAcc) : List PatientRow → List PatientAcc
  | [] => [c]
  | row :: rest =>
    if c.id = row.pid then
      assemblePatientsAux (addPatientMeta c row) rest
    else
      c :: assemblePatientsAux (addPatientMeta (newPatientAcc row) row) rest

/-- The whole patient assembly of routes.py 134-161 (`patients = []`,
`current_patient = None`, loop, final seal). -/
def assemblePatients : List PatientRow → List PatientAcc
  | [] => []
  | row :: rest => assemblePatientsAux (addPatientMeta (newPatientAcc row) row) rest

/-! ## Nested samples pass of `get_patients_metadata` (routes.py 163-201)

A row of the per-patient query (routes.py 165-175):
`s.id, s.patient_id, s.ext_sample_id, s.ext_sample_url, sm.id, sm.key, sm.value`,
with the `sm.*` columns nullable because of the `LEFT JOIN samples_metadata`. -/

structure SampleWoRow where
  sid : Nat
  spatientId : Nat
  extSampleId : String
  extSampleUrl : String
  smId : Option Nat
  smKey : Option String
  smValue : Option String
deriving DecidableEq

/-- Python truthiness of `sample_row[4]` (`sm.id`). -/
def swTruthy (row : SampleWoRow) : Bool :=
  match row.smId with
  | none => false
  | some n => n != 0

/-- The fresh `current_sample` dict (routes.py 185-191). -/
def newSampleWoAcc (row : SampleWoRow) : SampleWoAcc :=
  { id := row.sid
    patient_id := row.spatientId
    ext_sample_id := row.extSampleId
    ext_sample_url := row.extSampleUrl
    metadata := [] }

/-- Model of `if sample_row[4]: current_sample['metadata'].append(...)` (routes.py 192-198). -/
def addSampleWoMeta (c : SampleWoAcc) (row : SampleWoRow) : SampleWoAcc :=
  match row.smId with
  | none => c
  | some mid =>
    if mid = 0 then c
    else { c with metadata :=
            c.metadata ++ [{ id := mid, sample_id := row.sid,
                             key := row.smKey, value := row.smValue }] }

/-- The nested loop of routes.py 179-198 from `current_sample = c`, with the
final seal of routes.py 200-201. -/
def assembleSamplesOfPatientAux (c : SampleWoAcc) :
    List SampleWoRow → List SampleWoAcc
  | [] => [c]
  | row :: rest =>
    if c.id = row.sid then
      assembleSamplesOfPatientAux (addSampleWoMeta c row) rest
    else
      c :: assembleSamplesOfPatientAux (addSampleWoMeta (newSampleWoAcc row) row) rest

/-- The whole per-patient sample assembly (routes.py 177-201); the result is
what ends up appended to `patient['samples']`. -/
def assembleSamplesOfPatient : List SampleWoRow → List SampleWoAcc
  | [] => []
  | row :: rest =>
    assembleSamplesOfPatientAux (addSampleWoMeta (newSampleWoAcc row) row) rest

/-! ## Row-to-tree assembler of `get_samples_per_patient` (routes.py 210-289)

A row of the query (routes.py 220-246):
`s.id, s.patient_id, s.ext_sample_id, s.ext_sample_url, sm.id, sm.key, sm.value,
 p.id, p.project_id, p.ext_patient_id, p.ext_patient_url, p.public_patient_id`;
the `sm.*` columns are nullable (`LEFT JOIN samples_metadata`), while the
patient columns are forced non-null by the `WHERE p.project_id = %s` filter. -/

structure SampleRow where
  sid : Nat
  spatientId : Nat
  extSampleId : String
  extSampleUrl : String
  smId : Option Nat
  smKey : Option String
  smValue : Option String
  pId : Nat
  pProjectId : Nat
  pExtPatientId : String
  pExtPatientUrl : String
  pPublicPatientId : Option String
deriving DecidableEq

/-- The embedded `patient` dict of `current_sample` (routes.py 266-272). -/
structure PatientEmb where
  id : Nat
  project_id : Nat
  ext_patient_id : String
  ext_patient_url : String
  public_patient_id : Option String
deriving DecidableEq

/-- The `current_sample` dict of `get_samples_per_patient` (routes.py 260-273). -/
structure SampleAcc where
  id : Nat
  patient_id : Nat
  ext_sample_id : String
  ext_sample_url : String
  metadata : List SampleMetaE
  patient : PatientEmb
deriving DecidableEq

/-- Python truthiness of `row[4]` (`sm.id`) at routes.py 275. -/
def smTruthy (row : SampleRow) : Bool :=
  match row.smId with
  | none => false
  | some n => n != 0

/-- The fresh `current_sample` dict (routes.py 260-273). -/
def newSampleAcc (row : SampleRow) : SampleAcc :=
  { id := row.sid
    patient_id := row.spatientId
    ext_sample_id := row.extSampleId
    ext_sample_url := row.extSampleUrl
    metadata := []
    patient :=
      { id := row.pId
        project_id := row.pProjectId
        ext_patient_id := row.pExtPatientId
        ext_patient_url := row.pExtPatientUrl
        public_patient_id := row.pPublicPatientId } }

/-- Model of `if row[4]: current_sample['metadata'].append(...)` (routes.py 275-281). -/
def addSampleMeta (c : SampleAcc) (row : SampleRow) : SampleAcc :=
  match row.smId with
  | none => c
  | some mid =>
    if mid = 0 then c
    else { c with metadata :=
            c.metadata ++ [{ id := mid, sample_id := row.sid,
                             key := row.smKey, value := row.smValue }] }

/-- The loop of routes.py 254-281 from `current_sample = c`, with the final
seal of routes.py 283-284. -/
def assembleSamplesAux (c : SampleAcc) : List SampleRow → List SampleAcc
  | [] => [c]
  | row :: rest =>
    if c.id = row.sid then
      assembleSamplesAux (addSampleMeta c row) rest
    else
      c :: assembleSamplesAux (addSampleMeta (newSampleAcc row) row) rest

/-- The whole sample assembly of routes.py 251-284. -/
def assembleSamples : List SampleRow → List SampleAcc
  | [] => []
  | row :: rest => assembleSamplesAux (addSampleMeta (newSampleAcc row) row) rest

/-! ## Consecutive de-duplication (specification helper)

`dedupConsec l` keeps exactly one representative of every maximal run of
equal adjacent elements of `l`; the sealed-on-id-change assembler loops emit
one parent object per such run of the parent-id column. -/

def dedupConsecAux (prev : Nat) : List Nat → List Nat
  | [] => []
  | a :: rest =>
    if a = prev then dedupConsecAux prev rest
    else a :: dedupConsecAux a rest

def dedupConsec : List Nat → List Nat
  | [] => []
  | a :: rest => a :: dedupConsecAux a rest

/-! ## The `datasets_metadata` store and the upsert of `update_metadata`
(routes.py 495-574)

The table is modelled as a list of rows in insertion order; `SELECT ...
fetchone()` is the first matching row; `INSERT` appends a row with a fresh
serial id; `UPDATE ... WHERE id = %s` rewrites the rows carrying that id. -/

/-- A row of the `datasets_metadata` table (also the shape returned by
`get_dataset_with_metadata`, routes.py 427-430). -/
structure MetaRow where
  id : Nat
  dataset_id : Nat
  key : String
  value : String
deriving DecidableEq

/-- The `WHERE key = ... AND dataset_id = ...` match of routes.py 509-517. -/
def matchesKey (did : Nat) (k : String) (r : MetaRow) : Bool :=
  (r.key == k) && (r.dataset_id == did)

/-- Fresh serial id for an inserted row: one past the maximum id in the store. -/
def freshMetaId (store : List MetaRow) : Nat :=
  (store.map MetaRow.id).foldr max 0 + 1

/-- The `cursor.fetchone()` of the `SELECT id, value ... WHERE key = %s AND
dataset_id = %s` (routes.py 509-518): the first matching row, if any. -/
def selectByKey (store : List MetaRow) (did : Nat) (k : String) : Option MetaRow :=
  store.find? (matchesKey did k)

/-- The `UPDATE datasets_metadata SET value = %s WHERE id = %s` (routes.py 521-528). -/
def updateById (store : List MetaRow) (rid : Nat) (v : String) : List MetaRow :=
  store.map fun r => if r.id == rid then { r with value := v } else r

/-- The `INSERT INTO datasets_metadata (dataset_id, key, value) VALUES (%s, %s, %s)`
(routes.py 530-536). -/
def insertRow (store : List MetaRow) (did : Nat) (k : String) (v : String) :
    List MetaRow :=
  store ++ [{ id := freshMetaId store, dataset_id := did, key := k, value := v }]

/-- One select-then-update-or-insert block of `update_metadata`
(routes.py 509-536 for the key `raw_file_extension_size_of_all_files`, and
identically routes.py 540-567 for `last_size_update`), abstracted over the
metadata key exactly as §4.2 of the specification describes it. -/
def upsertKey (store : List MetaRow) (did : Nat) (k : String) (v : String) :
    List MetaRow :=
  match selectByKey store did k with
  | some r => updateById store r.id v
  | none => insertRow store did k v

/-! ## The `MetadataUpdate` schema (schemas.py 33-36) and the
`update_metadata` endpoint body (routes.py 495-574) -/

/-- The schema `class MetadataUpdate(BaseModel)` (schemas.py 33-36). -/
structure MetadataUpdate where
  dataset_id : Nat
  file_size : Option String
  last_size_update : Option String
deriving DecidableEq

/-- The declared field names of `MetadataUpdate` (schemas.py 33-36). -/
def metadataUpdateFields : List String :=
  ["dataset_id", "file_size", "last_size_update"]

/-- Python attribute lookup on a `MetadataUpdate` value for its
`Optional[str]` fields: `getStrField u name` is the value of the field
called `name`, and an `AttributeError` when no field of that name exists
(pydantic models raise `AttributeError` for undeclared attributes). -/
def getStrField (u : MetadataUpdate) (name : String) : Except String (Option String) :=
  if name = "file_size" then Except.ok u.file_size
  else if name = "last_size_update" then Except.ok u.last_size_update
  else Except.error ("AttributeError: " ++ name)

/-- Python truthiness of an `Optional[str]` value: non-null and non-empty. -/
def strTruthy : Option String → Bool
  | none => false
  | some s => s != ""

/-- The body of the `update_metadata` endpoint (routes.py 495-574) over a
`datasets_metadata` store.  Exactly as in the source, the first guard reads
the attribute `raw_file_size` of the update object (routes.py 508) and the
second reads `last_size_update` (routes.py 539); a raised `AttributeError`
aborts the body (it is not a `psycopg2.Error`, so the `except Error` clause
does not catch it either). -/
def update_metadata (store : List MetaRow) (u : MetadataUpdate) :
    Except String (List MetaRow) :=
  match getStrField u "raw_file_size" with
  | Except.error e => Except.error e
  | Except.ok rfs =>
    let store1 :=
      match rfs with
      | some v =>
        if v != "" then upsertKey store u.dataset_id "raw_file_extension_size_of_all_files" v
        else store
      | none => store
    match getStrField u "last_size_update" with
    | Except.error e => Except.error e
    | Except.ok lsu =>
      let store2 :=
        match lsu with
        | some v =>
          if v != "" then upsertKey store1 u.dataset_id "last_size_update" v
          else store1
        | none => store1
      Except.ok store2

/-! ## Query construction of `get_datasets` (routes.py 356-386) and
`get_patients` (routes.py 292-335) -/

/-- The base assignment `query = "SELECT id, project_id, name FROM datasets WHERE 1=1"`
(routes.py 368). -/
def datasetsBaseQuery : String :=
  "SELECT id, project_id, name FROM datasets WHERE 1=1"

/-- The query/params construction of `get_datasets` (routes.py 368-377). -/
def get_datasets_query (project_id : Option Nat) (dataset_id : Option Nat) :
    String × List Nat :=
  let q1 :=
    match project_id with
    | some _ => datasetsBaseQuery ++ " AND project_id = %s"
    | none => datasetsBaseQuery
  let p1 : List Nat :=
    match project_id with
    | some v => [v]
    | none => []
  let q2 :=
    match dataset_id with
    | some _ => q1 ++ " AND id = %s"
    | none => q1
  let p2 :=
    match dataset_id with
    | some v => p1 ++ [v]
    | none => p1
  (q2, p2)

/-- The base query of `get_patients` (routes.py 303-308); the source writes it
as a multi-line Python string, here normalised to one line with single spaces. -/
def patientsBaseQuery : String :=
  "SELECT p.id, p.project_id, p.ext_patient_id, p.ext_patient_url, p.public_patient_id, COUNT(s.id) AS sample_count FROM patients p LEFT JOIN samples s ON p.id = s.patient_id"

/-- The query/params construction of `get_patients` (routes.py 303-315). -/
def get_patients_query (project_id : Option Nat) : String × List Nat :=
  let q1 :=
    match project_id with
    | some _ => patientsBaseQuery ++ " WHERE p.project_id = %s"
    | none => patientsBaseQuery
  let p1 : List Nat :=
    match project_id with
    | some v => [v]
    | none => []
  (q1 ++ " GROUP BY p.id ORDER BY p.id", p1)

/-! ## `FileCreate.validate_file_type` (schemas.py 110-115) -/

/-- The list `allowed = ['raw', 'processed', 'summarised']` (schemas.py 112). -/
def allowedFileTypes : List String := ["raw", "processed", "summarised"]

/-- Python `repr` of a list of strings, as produced by the f-string
`f"... {allowed} ..."` (schemas.py 114). -/
def pyStrListRepr (l : List String) : String :=
  "[" ++ String.intercalate ", " (l.map fun s => "'" ++ s ++ "'") ++ "]"

/-- The validator body (schemas.py 110-115): reject values outside the
allowed set with the formatted `ValueError` message, return accepted values
unchanged. -/
def validate_file_type (v : String) : Except String String :=
  if v ∉ allowedFileTypes then
    Except.error ("file_type must be one of " ++ pyStrListRepr allowedFileTypes
      ++ ", got '" ++ v ++ "'")
  else Except.ok v

/-- The string `needle` occurs as a contiguous substring of `hay`. -/
def occursIn (needle hay : String) : Prop :=
  ∃ a b, hay = a ++ (needle ++ b)

/-- The first list is an initial segment of the second (executable). -/
def prefixMatch : List Char → List Char → Bool
  | [], _ => true
  | _ :: _, [] => false
  | a :: as, b :: bs => (a == b) && prefixMatch as bs

/-- The first list occurs contiguously inside the second (executable). -/
def containsRun : List Char → List Char → Bool
  | needle, [] => prefixMatch needle []
  | needle, b :: bs => prefixMatch needle (b :: bs) || containsRun needle bs

/-- Executable substring test on strings. -/
def strContains (hay needle : String) : Bool :=
  containsRun needle.data hay.data

/-! ## `get_dataset_with_metadata` (routes.py 389-435) -/

/-- A row of the `datasets` table (routes.py 399-406). -/
structure DatasetRowE where
  id : Nat
  project_id : Nat
  name : String
deriving DecidableEq

/-- The response dict of routes.py 423-431. -/
structure DatasetWithMetadataE where
  id : Nat
  project_id : Nat
  name : String
  metadata : List MetaRow
deriving DecidableEq

/-- The exceptions that can escape the `try` body: an `HTTPException`
(status code, detail) or a `psycopg2.Error` (message). -/
inductive PyExc where
  | http : Nat → String → PyExc
  | dbError : String → PyExc
deriving DecidableEq

/-- What the endpoint ultimately surfaces to the HTTP layer. -/
inductive HandlerOutcome where
  | ok : DatasetWithMetadataE → HandlerOutcome
  | httpError : Nat → String → HandlerOutcome
deriving DecidableEq

/-- The `cursor.fetchone()` of the dataset lookup (routes.py 399-407): the first
row matching `id = %s AND project_id = %s`. -/
def findDataset (datasets : List DatasetRowE) (did pid : Nat) : Option DatasetRowE :=
  datasets.find? fun d => (d.id == did) && (d.project_id == pid)

/-- The `try` body of `get_dataset_with_metadata` (routes.py 398-432),
abstracted over the two store interactions: `fetchDataset` is the outcome of
the dataset lookup (a `psycopg2.Error` or an optional row), `fetchMeta` the
outcome of the metadata query.  `if not dataset_row: raise
HTTPException(status_code=404, ...)` (routes.py 408-409) raises inside the
body. -/
def datasetHandlerBody (fetchDataset : Except String (Option DatasetRowE))
    (fetchMeta : Except String (List MetaRow)) :
    Except PyExc DatasetWithMetadataE :=
  match fetchDataset with
  | Except.error e => Except.error (PyExc.dbError e)
  | Except.ok none => Except.error (PyExc.http 404 "Dataset not found")
  | Except.ok (some d) =>
    match fetchMeta with
    | Except.error e => Except.error (PyExc.dbError e)
    | Except.ok rows =>
      Except.ok { id := d.id, project_id := d.project_id, name := d.name,
                  metadata := rows }

/-- The `except Error as e` clause (routes.py 434-435): only a
`psycopg2.Error` is re-wrapped as a 500 `Database error`; an `HTTPException`
raised inside the body is not an `Error` and propagates unchanged. -/
def datasetExceptWrapper (r : Except PyExc DatasetWithMetadataE) : HandlerOutcome :=
  match r with
  | Except.ok v => HandlerOutcome.ok v
  | Except.error (PyExc.dbError e) =>
    HandlerOutcome.httpError 500 ("Database error: " ++ e)
  | Except.error (PyExc.http c m) => HandlerOutcome.httpError c m

/-- The whole endpoint (routes.py 389-435) over abstract store outcomes. -/
def get_dataset_with_metadata (fetchDataset : Except String (Option DatasetRowE))
    (fetchMeta : Except String (List MetaRow)) : HandlerOutcome :=
  datasetExceptWrapper (datasetHandlerBody fetchDataset fetchMeta)

/-- The endpoint run against in-memory tables with no store failure: the
dataset lookup is routes.py 399-407, the metadata query selects the rows with
`dataset_id = %s` (routes.py 412-419). -/
def runDatasetHandler (datasets : List DatasetRowE) (meta : List MetaRow)
    (did pid : Nat) : HandlerOutcome :=
  get_dataset_with_metadata (Except.ok (findDataset datasets did pid))
    (Except.ok (meta.filter fun m => m.dataset_id == did))

/-! ## Concrete inputs used by the witnesses and counterexamples -/

def c1WitnessRows : List PatientRow :=
  [ { pid := 1, projectId := 0, extPatientId := "A", extPatientUrl := "u",
      publicPatientId := none, pmId := some 11, pmKey := some "k", pmValue := some "v" },
    { pid := 1, projectId := 0, extPatientId := "A", extPatientUrl := "u",
      publicPatientId := none, pmId := some 12, pmKey := some "k2", pmValue := some "v2" },
    { pid := 3, projectId := 0, extPatientId := "C", extPatientUrl := "u",
      publicPatientId := none, pmId := none, pmKey := none, pmValue := none },
    { pid := 5, projectId := 0, extPatientId := "E", extPatientUrl := "u",
      publicPatientId := some "pub", pmId := some 13, pmKey := some "k", pmValue := some "v" } ]

/-- The §8 scenario rows `[(1,"A",101,"k1","v1"), (1,"A",101,"k2","v2"),
(1,"A",None,None,None), (2,"B",202,"k1","v1")]`, written as rows of the
`get_patients_metadata` query with `ext_patient_id` carrying the parent name. -/
def c6Rows : List PatientRow :=
  [ { pid := 1, projectId := 0, extPatientId := "A", extPatientUrl := "",
      publicPatientId := none, pmId := some 101, pmKey := some "k1", pmValue := some "v1" },
    { pid := 1, projectId := 0, extPatientId := "A", extPatientUrl := "",
      publicPatientId := none, pmId := some 101, pmKey := some "k2", pmValue := some "v2" },
    { pid := 1, projectId := 0, extPatientId := "A", extPatientUrl := "",
      publicPatientId := none, pmId := none, pmKey := none, pmValue := none },
    { pid := 2, projectId := 0, extPatientId := "B", extPatientUrl := "",
      publicPatientId := none, pmId := some 202, pmKey := some "k1", pmValue := some "v1" } ]

def c7WitnessRows : List PatientRow :=
  [ { pid := 1, projectId := 0, extPatientId := "A", extPatientUrl := "u",
      publicPatientId := none, pmId := some 11, pmKey := some "k", pmValue := some "v" },
    { pid := 2, projectId := 0, extPatientId := "B", extPatientUrl := "u",
      publicPatientId := none, pmId := none, pmKey := none, pmValue := none },
    { pid := 3, projectId := 0, extPatientId := "C", extPatientUrl := "u",
      publicPatientId := none, pmId := some 12, pmKey := some "k", pmValue := some "v" } ]

def c7WitnessRow : PatientRow :=
  { pid := 2, projectId := 0, extPatientId := "B", extPatientUrl := "u",
    publicPatientId := none, pmId := none, pmKey := none, pmValue := none }

/-- Two consecutive rows of one sample (sample id 1) carrying the same
non-null, non-zero child metadata id 7. -/
def c5CexRows : List SampleRow :=
  [ { sid := 1, spatientId := 9, extSampleId := "s", extSampleUrl := "",
      smId := some 7, smKey := some "k", smValue := some "v",
      pId := 9, pProjectId := 3, pExtPatientId := "p", pExtPatientUrl := "",
      pPublicPatientId := none },
    { sid := 1, spatientId := 9, extSampleId := "s", extSampleUrl := "",
      smId := some 7, smKey := some "k", smValue := some "v",
      pId := 9, pProjectId := 3, pExtPatientId := "p", pExtPatientUrl := "",
      pPublicPatientId := none } ]

/-! ## General lemmas about the assembler loops -/

theorem addPatientMeta_id (c : PatientAcc) (row : PatientRow) :
    (addPatientMeta c row).id = c.id := by
  unfold addPatientMeta
  cases row.pmId with
  | none => rfl
  | some mid =>
    by_cases h : mid = 0 <;> simp [h]

theorem dedupConsecAux_sublist (l : List Nat) (p : Nat) :
    List.Sublist (dedupConsecAux p l) l := by
  induction l generalizing p with
  | nil => simp [dedupConsecAux]
  | cons a rest ih =>
    unfold dedupConsecAux
    by_cases h : a = p
    · rw [if_pos h]
      exact List.Sublist.cons a (ih p)
    · rw [if_neg h]
      exact List.Sublist.cons₂ a (ih a)

theorem mem_cons_dedupConsecAux (l : List Nat) (p x : Nat) (hx : x ∈ l) :
    x ∈ p :: dedupConsecAux p l := by
  induction l generalizing p with
  | nil => cases hx
  | cons a rest ih =>
    unfold dedupConsecAux
    rcases List.mem_cons.mp hx with rfl | hmem
    · by_cases h : x = p
      · simp [h]
      · simp [h]
    · by_cases h : a = p
      · simpa [h] using ih p hmem
      · rcases List.mem_cons.mp (ih a hmem) with rfl | h2
        · simp [h]
        · simp [h, List.mem_cons.mpr (Or.inr h2)]

theorem chain_lt_dedupConsecAux (l : List Nat) (p : Nat)
    (h : List.Chain (· ≤ ·) p l) :
    List.Chain (· < ·) p (dedupConsecAux p l) := by
  induction l generalizing p with
  | nil => exact List.Chain.nil
  | cons a rest ih =>
    rcases (List.chain_cons.mp h) with ⟨hpa, hrest⟩
    unfold dedupConsecAux
    by_cases heq : a = p
    · subst heq
      simpa using ih a hrest
    · simp only [if_neg heq]
      exact List.Chain.cons (lt_of_le_of_ne hpa (fun e => heq e.symm)) (ih a hrest)

/-- The sequence of parent ids emitted by the patient assembler loop, started
with accumulator `c`, is the consecutive-deduplication of the parent-id
column: one sealed object per maximal run of equal adjacent parent ids. -/
theorem assemblePatientsAux_map_id (rows : List PatientRow) (c : PatientAcc) :
    (assemblePatientsAux c rows).map PatientAcc.id
      = c.id :: dedupConsecAux c.id (rows.map PatientRow.pid) := by
  induction rows generalizing c with
  | nil => simp [assemblePatientsAux, dedupConsecAux]
  | cons row rest ih =>
    unfold assemblePatientsAux
    rw [List.map_cons]
    simp only [dedupConsecAux]
    by_cases h : c.id = row.pid
    · rw [if_pos h, if_pos h.symm, ih, addPatientMeta_id]
    · rw [if_neg h, if_neg (fun e => h e.symm), List.map_cons, ih,
        addPatientMeta_id]
      have hnew : (newPatientAcc row).id = row.pid := rfl
      rw [hnew]

/-- The parent-id sequence of the full patient assembly. -/
theorem assemblePatients_map_id (rows : List PatientRow) :
    (assemblePatients rows).map PatientAcc.id
      = dedupConsec (rows.map PatientRow.pid) := by
  cases rows with
  | nil => rfl
  | cons row rest =>
    unfold assemblePatients dedupConsec
    rw [List.map_cons, assemblePatientsAux_map_id, addPatientMeta_id]
    rfl

/-- On a list sorted by `≤`, consecutive de-duplication yields a duplicate-free
subsequence with the same element set, of length the number of distinct values. -/
theorem dedupConsec_sorted_spec (l : List Nat) (hs : l.Sorted (· ≤ ·)) :
    (dedupConsec l).Nodup ∧ (dedupConsec l).length = l.toFinset.card ∧
    (dedupConsec l).toFinset = l.toFinset ∧ List.Sublist (dedupConsec l) l := by
  cases l with
  | nil => simp [dedupConsec]
  | cons a t =>
    simp only [dedupConsec]
    have hchain : List.Chain (· ≤ ·) a t := List.chain_iff_pairwise.mpr hs
    have hlt : List.Chain (· < ·) a (dedupConsecAux a t) :=
      chain_lt_dedupConsecAux t a hchain
    have hpw : List.Pairwise (· < ·) (a :: dedupConsecAux a t) :=
      List.chain_iff_pairwise.mp hlt
    have hnd : (a :: dedupConsecAux a t).Nodup :=
      hpw.imp fun hab => ne_of_lt hab
    have hsub : List.Sublist (a :: dedupConsecAux a t) (a :: t) :=
      List.Sublist.cons₂ a (dedupConsecAux_sublist t a)
    have hfs : (a :: dedupConsecAux a t).toFinset = (a :: t).toFinset := by
      apply Finset.ext
      intro x
      simp only [List.mem_toFinset]
      constructor
      · intro hx
        exact hsub.subset hx
      · intro hx
        rcases List.mem_cons.mp hx with rfl | hx2
        · exact List.mem_cons_self x (dedupConsecAux x t)
        · exact mem_cons_dedupConsecAux t a x hx2
    refine ⟨hnd, ?_, hfs, hsub⟩
    rw [← hfs, List.toFinset_card_of_nodup hnd]

/-- C1: for an input row sequence sorted by parent id, the patient assembly of
`get_patients_metadata` (routes.py 134-161) emits one parent object per
distinct parent id: the emitted id sequence is duplicate-free, its length is
the number of distinct parent ids of the input, it covers exactly the input's
parent ids, and it is a subsequence of the input parent-id column (first-seen
order). -/
theorem parents_distinct_first_seen (rows : List PatientRow)
    (hsorted : (rows.map PatientRow.pid).Sorted (· ≤ ·)) :
    ((assemblePatients rows).map PatientAcc.id).Nodup ∧
    ((assemblePatients rows).map PatientAcc.id).length
      = (rows.map PatientRow.pid).toFinset.card ∧
    ((assemblePatients rows).map PatientAcc.id).toFinset
      = (rows.map PatientRow.pid).toFinset ∧
    List.Sublist ((assemblePatients rows).map PatientAcc.id)
      (rows.map PatientRow.pid) := by
  rw [assemblePatients_map_id]
  exact dedupConsec_sorted_spec (rows.map PatientRow.pid) hsorted


/-- Witness for `parents_distinct_first_seen` on a concrete sorted input with
three distinct parent ids. -/
theorem parents_distinct_first_seen_witness :
    ((c1WitnessRows.map PatientRow.pid).Sorted (· ≤ ·)) ∧
    (((assemblePatients c1WitnessRows).map PatientAcc.id).Nodup ∧
      ((assemblePatients c1WitnessRows).map PatientAcc.id).length
        = (c1WitnessRows.map PatientRow.pid).toFinset.card ∧
      ((assemblePatients c1WitnessRows).map PatientAcc.id).toFinset
        = (c1WitnessRows.map PatientRow.pid).toFinset ∧
      List.Sublist ((assemblePatients c1WitnessRows).map PatientAcc.id)
        (c1WitnessRows.map PatientRow.pid)) :=
  ⟨by decide, parents_distinct_first_seen c1WitnessRows (by decide)⟩

/-! ## The end-to-end scenario of §8 of the specification (claim C6) -/


/-- C6: on the §8 scenario input, the assembler of `get_patients_metadata`
emits exactly two parents — parent 1 "A" with two metadata entries and parent
2 "B" with one — with no duplicated parent id, the all-null third row adding
neither a third metadata entry nor a duplicate parent. -/
theorem end_to_end_assembly :
    (assemblePatients c6Rows).map
        (fun p => (p.id, p.ext_patient_id, p.metadata.length))
      = [(1, "A", 2), (2, "B", 1)] ∧
    (assemblePatients c6Rows).length = 2 ∧
    ((assemblePatients c6Rows).map PatientAcc.id).Nodup ∧
    (assemblePatients c6Rows).map (fun p => p.metadata.map PatientMetaE.key)
      = [[some "k1", some "k2"], [some "k1"]] := by
  refine ⟨by decide, by decide, by decide, by decide⟩

/-! ## Claim C7: a childless parent yields an empty metadata sequence -/

theorem addPatientMeta_none (c : PatientAcc) (row : PatientRow)
    (h : row.pmId = none) : addPatientMeta c row = c := by
  unfold addPatientMeta
  rw [h]

/-- If every remaining row of the current parent's run carries a null child
id, the accumulator's metadata list is sealed unchanged. -/
theorem assemblePatientsAux_run_null (rows : List PatientRow) (c : PatientAcc)
    (hnull : ∀ r2 ∈ rows, r2.pid = c.id → r2.pmId = none) :
    ∃ p ∈ assemblePatientsAux c rows, p.id = c.id ∧ p.metadata = c.metadata := by
  induction rows generalizing c with
  | nil =>
    exact ⟨c, by simp [assemblePatientsAux], rfl, rfl⟩
  | cons row rest ih =>
    unfold assemblePatientsAux
    by_cases hid : c.id = row.pid
    · have hnone : row.pmId = none :=
        hnull row (List.mem_cons_self row rest) hid.symm
      rw [if_pos hid, addPatientMeta_none c row hnone]
      exact ih c fun r2 h2 hp => hnull r2 (List.mem_cons_of_mem row h2) hp
    · rw [if_neg hid]
      exact ⟨c, List.mem_cons_self c _, rfl, rfl⟩

/-- If `r` lies ahead in the input, every row of `r`'s parent carries a null
child id, and the current accumulator belongs to a different parent, the
output contains a parent object for `r.pid` with empty metadata. -/
theorem assemblePatientsAux_lonely (rows : List PatientRow) (r : PatientRow) :
    ∀ c : PatientAcc, r ∈ rows →
    (∀ r2 ∈ rows, r2.pid = r.pid → r2.pmId = none) →
    c.id ≠ r.pid →
    ∃ p ∈ assemblePatientsAux c rows, p.id = r.pid ∧ p.metadata = [] := by
  induction rows with
  | nil =>
    intro c hr _ _
    cases hr
  | cons row rest ih =>
    intro c hr hnull hc
    unfold assemblePatientsAux
    by_cases hid : c.id = row.pid
    · rw [if_pos hid]
      have hrowne : row.pid ≠ r.pid := fun e => hc (hid.trans e)
      have hr2 : r ∈ rest := by
        rcases List.mem_cons.mp hr with rfl | h2
        · exact absurd rfl hrowne
        · exact h2
      have hcid : (addPatientMeta c row).id ≠ r.pid := by
        rw [addPatientMeta_id]
        exact hc
      exact ih (addPatientMeta c row) hr2
        (fun r2 h2 hp => hnull r2 (List.mem_cons_of_mem row h2) hp) hcid
    · rw [if_neg hid]
      by_cases hrow : row.pid = r.pid
      · have hnone : row.pmId = none :=
          hnull row (List.mem_cons_self row rest) hrow
        rw [addPatientMeta_none _ row hnone]
        have hnew : (newPatientAcc row).id = row.pid := rfl
        obtain ⟨p, hp, hpid, hpm⟩ :=
          assemblePatientsAux_run_null rest (newPatientAcc row)
            (fun r2 h2 hp => hnull r2 (List.mem_cons_of_mem row h2)
              (by rw [← hrow, ← hnew]; exact hp))
        exact ⟨p, List.mem_cons_of_mem c hp,
          by rw [hpid, hnew, hrow], hpm⟩
      · have hr2 : r ∈ rest := by
          rcases List.mem_cons.mp hr with rfl | h2
          · exact absurd rfl hrow
          · exact h2
        have hcid : (addPatientMeta (newPatientAcc row) row).id ≠ r.pid := by
          rw [addPatientMeta_id]
          exact hrow
        obtain ⟨p, hp, hgoal⟩ :=
          ih (addPatientMeta (newPatientAcc row) row) hr2
            (fun r2 h2 hp => hnull r2 (List.mem_cons_of_mem row h2) hp) hcid
        exact ⟨p, List.mem_cons_of_mem c hp, hgoal⟩

/-- C7: a parent whose only input row has all child columns null (the
left-join shape of a patient with zero metadata rows) is emitted by
`get_patients_metadata` (routes.py 139-158) as a parent object with an empty
metadata sequence — not silently dropped. -/
theorem childless_parent_present_empty (rows : List PatientRow)
    (r : PatientRow) (hmem : r ∈ rows) (hid : r.pmId = none)
    (_hkey : r.pmKey = none) (_hval : r.pmValue = none)
    (honly : ∀ r2 ∈ rows, r2.pid = r.pid → r2 = r) :
    ∃ p ∈ assemblePatients rows, p.id = r.pid ∧ p.metadata = [] := by
  have hnull : ∀ r2 ∈ rows, r2.pid = r.pid → r2.pmId = none := by
    intro r2 h2 hp
    rw [honly r2 h2 hp]
    exact hid
  cases rows with
  | nil => cases hmem
  | cons row rest =>
    simp only [assemblePatients]
    by_cases hrow : row.pid = r.pid
    · have hnone : row.pmId = none :=
        hnull row (List.mem_cons_self row rest) hrow
      rw [addPatientMeta_none _ row hnone]
      have hnew : (newPatientAcc row).id = row.pid := rfl
      obtain ⟨p, hp, hpid, hpm⟩ :=
        assemblePatientsAux_run_null rest (newPatientAcc row)
          (fun r2 h2 hp => hnull r2 (List.mem_cons_of_mem row h2)
            (by rw [← hrow, ← hnew]; exact hp))
      exact ⟨p, hp, by rw [hpid, hnew, hrow], hpm⟩
    · have hr2 : r ∈ rest := by
        rcases List.mem_cons.mp hmem with rfl | h2
        · exact absurd rfl hrow
        · exact h2
      have hcid : (addPatientMeta (newPatientAcc row) row).id ≠ r.pid := by
        rw [addPatientMeta_id]
        exact hrow
      exact assemblePatientsAux_lonely rest r
        (addPatientMeta (newPatientAcc row) row) hr2
        (fun r2 h2 hp => hnull r2 (List.mem_cons_of_mem row h2) hp) hcid

/-- Witness for `childless_parent_present_empty`: in a three-patient input
the middle patient's only row is all-null, and it is emitted with empty
metadata. -/
theorem childless_parent_present_empty_witness :
    (c7WitnessRow ∈ c7WitnessRows ∧ c7WitnessRow.pmId = none ∧
      c7WitnessRow.pmKey = none ∧ c7WitnessRow.pmValue = none ∧
      (∀ r2 ∈ c7WitnessRows, r2.pid = c7WitnessRow.pid → r2 = c7WitnessRow)) ∧
    (∃ p ∈ assemblePatients c7WitnessRows,
      p.id = c7WitnessRow.pid ∧ p.metadata = []) :=
  ⟨⟨by decide, by decide, by decide, by decide, by decide⟩,
    childless_parent_present_empty c7WitnessRows c7WitnessRow (by decide)
      (by decide) (by decide) (by decide) (by decide)⟩

/-! ## Metadata appends count one entry per truthy row (claims C5, C10) -/

theorem addSampleMeta_metadata_length (c : SampleAcc) (row : SampleRow) :
    (addSampleMeta c row).metadata.length
      = c.metadata.length + (if smTruthy row = true then 1 else 0) := by
  unfold addSampleMeta smTruthy
  cases row.smId with
  | none => simp
  | some mid =>
    by_cases h : mid = 0 <;> simp [h]

theorem addPatientMeta_metadata_length (c : PatientAcc) (row : PatientRow) :
    (addPatientMeta c row).metadata.length
      = c.metadata.length + (if pmTruthy row = true then 1 else 0) := by
  unfold addPatientMeta pmTruthy
  cases row.pmId with
  | none => simp
  | some mid =>
    by_cases h : mid = 0 <;> simp [h]

theorem assembleSamplesAux_meta_sum (rows : List SampleRow) (c : SampleAcc) :
    ((assembleSamplesAux c rows).map (fun s => s.metadata.length)).sum
      = c.metadata.length + rows.countP smTruthy := by
  induction rows generalizing c with
  | nil => simp [assembleSamplesAux]
  | cons row rest ih =>
    unfold assembleSamplesAux
    by_cases h : c.id = row.sid
    · rw [if_pos h, ih, addSampleMeta_metadata_length, List.countP_cons]
      omega
    · rw [if_neg h, List.map_cons, List.sum_cons, ih,
        addSampleMeta_metadata_length, List.countP_cons]
      have hnew : (newSampleAcc row).metadata.length = 0 := rfl
      rw [hnew]
      omega

theorem assemblePatientsAux_meta_sum (rows : List PatientRow) (c : PatientAcc) :
    ((assemblePatientsAux c rows).map (fun p => p.metadata.length)).sum
      = c.metadata.length + rows.countP pmTruthy := by
  induction rows generalizing c with
  | nil => simp [assemblePatientsAux]
  | cons row rest ih =>
    unfold assemblePatientsAux
    by_cases h : c.id = row.pid
    · rw [if_pos h, ih, addPatientMeta_metadata_length, List.countP_cons]
      omega
    · rw [if_neg h, List.map_cons, List.sum_cons, ih,
        addPatientMeta_metadata_length, List.countP_cons]
      have hnew : (newPatientAcc row).metadata.length = 0 := rfl
      rw [hnew]
      omega

theorem assembleSamples_meta_sum (rows : List SampleRow) :
    ((assembleSamples rows).map (fun s => s.metadata.length)).sum
      = rows.countP smTruthy := by
  cases rows with
  | nil => simp [assembleSamples]
  | cons row rest =>
    simp only [assembleSamples]
    rw [assembleSamplesAux_meta_sum, addSampleMeta_metadata_length,
      List.countP_cons]
    have hnew : (newSampleAcc row).metadata.length = 0 := rfl
    rw [hnew]
    omega

theorem assemblePatients_meta_sum (rows : List PatientRow) :
    ((assemblePatients rows).map (fun p => p.metadata.length)).sum
      = rows.countP pmTruthy := by
  cases rows with
  | nil => simp [assemblePatients]
  | cons row rest =>
    simp only [assemblePatients]
    rw [assemblePatientsAux_meta_sum, addPatientMeta_metadata_length,
      List.countP_cons]
    have hnew : (newPatientAcc row).metadata.length = 0 := rfl
    rw [hnew]
    omega

/-! ## Claim C5: consecutive duplicate child ids are NOT collapsed -/


/-- C5 counterexample: on an input where the same non-null child id 7 appears
in two consecutive rows of one parent, the assembler of
`get_samples_per_patient` (routes.py 254-284) emits TWO child entries for
that id, not a single one: the append at routes.py 275-281 fires whenever the
child id column is truthy, with no tracking of the last-seen child id. -/
theorem consecutive_duplicate_child_not_collapsed :
    ((assembleSamples c5CexRows).map (fun s => s.metadata.length) = [2]) ∧
    ¬ (∀ s ∈ assembleSamples c5CexRows,
        (s.metadata.countP fun m => m.id == 7) ≤ 1) := by
  constructor
  · decide
  · decide

/-- C5 amended: the assembler appends one child entry per input row whose
child-id column is truthy (non-null and non-zero) — with no de-duplication of
consecutive duplicate child ids — in both `get_samples_per_patient`
(routes.py 254-284) and the patient-metadata loop of `get_patients_metadata`
(routes.py 136-158): the total number of emitted child entries equals the
number of truthy input rows. -/
theorem child_entry_per_truthy_row (rows : List SampleRow)
    (prows : List PatientRow) :
    ((assembleSamples rows).map (fun s => s.metadata.length)).sum
      = rows.countP smTruthy ∧
    ((assemblePatients prows).map (fun p => p.metadata.length)).sum
      = prows.countP pmTruthy :=
  ⟨assembleSamples_meta_sum rows, assemblePatients_meta_sum prows⟩

/-! ## Claim C10: zero child ids are dropped by the truthiness guards -/

theorem addPatientMeta_zero_count (c : PatientAcc) (row : PatientRow) :
    ((addPatientMeta c row).metadata.countP fun m => m.id == 0)
      = c.metadata.countP fun m => m.id == 0 := by
  unfold addPatientMeta
  cases row.pmId with
  | none => rfl
  | some mid =>
    by_cases h : mid = 0 <;> simp [h, List.countP_append]

theorem addSampleMeta_zero_count (c : SampleAcc) (row : SampleRow) :
    ((addSampleMeta c row).metadata.countP fun m => m.id == 0)
      = c.metadata.countP fun m => m.id == 0 := by
  unfold addSampleMeta
  cases row.smId with
  | none => rfl
  | some mid =>
    by_cases h : mid = 0 <;> simp [h, List.countP_append]

theorem addSampleWoMeta_zero_count (c : SampleWoAcc) (row : SampleWoRow) :
    ((addSampleWoMeta c row).metadata.countP fun m => m.id == 0)
      = c.metadata.countP fun m => m.id == 0 := by
  unfold addSampleWoMeta
  cases row.smId with
  | none => rfl
  | some mid =>
    by_cases h : mid = 0 <;> simp [h, List.countP_append]

theorem assemblePatientsAux_zero_count (rows : List PatientRow)
    (c : PatientAcc) :
    ((assemblePatientsAux c rows).map
        (fun p => p.metadata.countP fun m => m.id == 0)).sum
      = c.metadata.countP fun m => m.id == 0 := by
  induction rows generalizing c with
  | nil => simp [assemblePatientsAux]
  | cons row rest ih =>
    unfold assemblePatientsAux
    by_cases h : c.id = row.pid
    · rw [if_pos h, ih, addPatientMeta_zero_count]
    · rw [if_neg h, List.map_cons, List.sum_cons, ih,
        addPatientMeta_zero_count]
      have hnew : ((newPatientAcc row).metadata.countP fun m => m.id == 0)
          = 0 := rfl
      rw [hnew]
      omega

theorem assembleSamplesAux_zero_count (rows : List SampleRow) (c : SampleAcc) :
    ((assembleSamplesAux c rows).map
        (fun s => s.metadata.countP fun m => m.id == 0)).sum
      = c.metadata.countP fun m => m.id == 0 := by
  induction rows generalizing c with
  | nil => simp [assembleSamplesAux]
  | cons row rest ih =>
    unfold assembleSamplesAux
    by_cases h : c.id = row.sid
    · rw [if_pos h, ih, addSampleMeta_zero_count]
    · rw [if_neg h, List.map_cons, List.sum_cons, ih,
        addSampleMeta_zero_count]
      have hnew : ((newSampleAcc row).metadata.countP fun m => m.id == 0)
          = 0 := rfl
      rw [hnew]
      omega

theorem assembleSamplesOfPatientAux_zero_count (rows : List SampleWoRow)
    (c : SampleWoAcc) :
    ((assembleSamplesOfPatientAux c rows).map
        (fun s => s.metadata.countP fun m => m.id == 0)).sum
      = c.metadata.countP fun m => m.id == 0 := by
  induction rows generalizing c with
  | nil => simp [assembleSamplesOfPatientAux]
  | cons row rest ih =>
    unfold assembleSamplesOfPatientAux
    by_cases h : c.id = row.sid
    · rw [if_pos h, ih, addSampleWoMeta_zero_count]
    · rw [if_neg h, List.map_cons, List.sum_cons, ih,
        addSampleWoMeta_zero_count]
      have hnew : ((newSampleWoAcc row).metadata.countP fun m => m.id == 0)
          = 0 := rfl
      rw [hnew]
      omega

/-- C10: every child-append site guards on Python truthiness of the id column
(`if row[5]:` at routes.py 152, `if row[4]:` at routes.py 275, `if
sample_row[4]:` at routes.py 192), so a row whose child metadata-id column is
non-null but equal to 0 contributes no child record: across all three
assembler loops, no emitted metadata entry carries id 0. -/
theorem falsy_child_id_omitted (prows : List PatientRow)
    (srows : List SampleRow) (wrows : List SampleWoRow) :
    ((assemblePatients prows).map
        (fun p => p.metadata.countP fun m => m.id == 0)).sum = 0 ∧
    ((assembleSamples srows).map
        (fun s => s.metadata.countP fun m => m.id == 0)).sum = 0 ∧
    ((assembleSamplesOfPatient wrows).map
        (fun s => s.metadata.countP fun m => m.id == 0)).sum = 0 := by
  refine ⟨?_, ?_, ?_⟩
  · cases prows with
    | nil => simp [assemblePatients]
    | cons row rest =>
      simp only [assemblePatients]
      rw [assemblePatientsAux_zero_count, addPatientMeta_zero_count]
      rfl
  · cases srows with
    | nil => simp [assembleSamples]
    | cons row rest =>
      simp only [assembleSamples]
      rw [assembleSamplesAux_zero_count, addSampleMeta_zero_count]
      rfl
  · cases wrows with
    | nil => simp [assembleSamplesOfPatient]
    | cons row rest =>
      simp only [assembleSamplesOfPatient]
      rw [assembleSamplesOfPatientAux_zero_count, addSampleWoMeta_zero_count]
      rfl

/-! ## Claim C2: the select-then-update-or-insert upsert -/

theorem le_foldr_max (l : List Nat) (n : Nat) (h : n ∈ l) :
    n ≤ l.foldr max 0 := by
  induction l with
  | nil => cases h
  | cons a t ih =>
    rcases List.mem_cons.mp h with rfl | h2
    · exact le_max_left n (t.foldr max 0)
    · exact le_trans (ih h2) (le_max_right a (t.foldr max 0))

/-- A freshly inserted serial id collides with no id already in the store. -/
theorem freshMetaId_not_mem (store : List MetaRow) (r : MetaRow)
    (h : r ∈ store) : r.id ≠ freshMetaId store := by
  intro e
  have hle : r.id ≤ (store.map MetaRow.id).foldr max 0 :=
    le_foldr_max (store.map MetaRow.id) r.id (List.mem_map_of_mem MetaRow.id h)
  unfold freshMetaId at e
  omega

/-- An `UPDATE ... WHERE id = %s` touching an id present in no row is the identity. -/
theorem updateById_of_not_mem (l : List MetaRow) (rid : Nat) (v : String)
    (h : ∀ r ∈ l, r.id ≠ rid) : updateById l rid v = l := by
  unfold updateById
  induction l with
  | nil => rfl
  | cons a t ih =>
    rw [List.map_cons]
    rw [if_neg (by simp [h a (List.mem_cons_self a t)])]
    rw [ih fun r hr => h r (List.mem_cons_of_mem a hr)]

theorem find?_append_of_none {α : Type} (p : α → Bool) (l1 l2 : List α)
    (h : l1.find? p = none) : (l1 ++ l2).find? p = l2.find? p := by
  induction l1 with
  | nil => simp
  | cons a t ih =>
    rw [List.cons_append]
    cases hp : p a with
    | true =>
      rw [List.find?_cons_of_pos _ hp] at h
      cases h
    | false =>
      rw [List.find?_cons_of_neg _ (by simp [hp])] at h
      rw [List.find?_cons_of_neg _ (by simp [hp])]
      exact ih h

/-- An empty match count means the `SELECT ... fetchone()` finds nothing. -/
theorem selectByKey_of_count_zero (store : List MetaRow) (did : Nat) (k : String)
    (h : store.countP (matchesKey did k) = 0) : selectByKey store did k = none := by
  unfold selectByKey
  apply List.find?_eq_none.mpr
  intro x hx
  exact List.countP_eq_zero.mp h x hx

/-- C2: starting from any `datasets_metadata` store with no row for
`(dataset_id 5, key "k")`, running the select-then-update-or-insert block of
`update_metadata` (routes.py 509-536 / 540-567) first with value `"v1"` and
then with value `"v2"` leaves exactly one row matching `(5, "k")`, and every
row of the final store for dataset 5 and key `"k"` carries value `"v2"`. -/
theorem upsert_twice_single_row (store : List MetaRow)
    (h : store.countP (matchesKey 5 "k") = 0) :
    ((upsertKey (upsertKey store 5 "k" "v1") 5 "k" "v2").countP
        (matchesKey 5 "k") = 1) ∧
    (∀ r ∈ upsertKey (upsertKey store 5 "k" "v1") 5 "k" "v2",
      r.dataset_id = 5 → r.key = "k" → r.value = "v2") := by
  have hfind : store.find? (matchesKey 5 "k") = none := by
    have := selectByKey_of_count_zero store 5 "k" h
    unfold selectByKey at this
    exact this
  have e1 : upsertKey store 5 "k" "v1"
      = store ++ [{ id := freshMetaId store, dataset_id := 5, key := "k",
                    value := "v1" }] := by
    unfold upsertKey
    rw [selectByKey_of_count_zero store 5 "k" h]
    rfl
  have hmatch : matchesKey 5 "k"
      { id := freshMetaId store, dataset_id := 5, key := "k", value := "v1" }
      = true := by
    unfold matchesKey
    simp
  have h2 : selectByKey
      (store ++ [{ id := freshMetaId store, dataset_id := 5, key := "k",
                   value := "v1" }]) 5 "k"
      = some { id := freshMetaId store, dataset_id := 5, key := "k",
               value := "v1" } := by
    unfold selectByKey
    rw [find?_append_of_none _ store _ hfind]
    exact List.find?_cons_of_pos [] hmatch
  have e2 : upsertKey
      (store ++ [{ id := freshMetaId store, dataset_id := 5, key := "k",
                   value := "v1" }]) 5 "k" "v2"
      = updateById
        (store ++ [{ id := freshMetaId store, dataset_id := 5, key := "k",
                     value := "v1" }]) (freshMetaId store) "v2" := by
    unfold upsertKey
    rw [h2]
  have e3 : upsertKey (upsertKey store 5 "k" "v1") 5 "k" "v2"
      = store ++ [{ id := freshMetaId store, dataset_id := 5, key := "k",
                    value := "v2" }] := by
    rw [e1, e2]
    unfold updateById
    rw [List.map_append]
    have hstore : (store.map fun r =>
        if r.id == freshMetaId store then { r with value := "v2" } else r)
        = store := by
      have := updateById_of_not_mem store (freshMetaId store) "v2"
        (fun r hr => freshMetaId_not_mem store r hr)
      unfold updateById at this
      exact this
    rw [hstore]
    simp
  rw [e3]
  constructor
  · rw [List.countP_append, h]
    simp [matchesKey]
  · intro r hr h5 hk
    rcases List.mem_append.mp hr with hin | hin
    · exfalso
      have hnm := List.countP_eq_zero.mp h r hin
      apply hnm
      unfold matchesKey
      rw [h5, hk]
      simp
    · rcases List.mem_singleton.mp hin with rfl
      rfl

/-- Witness for `upsert_twice_single_row` on the empty store. -/
theorem upsert_twice_single_row_witness :
    (([] : List MetaRow).countP (matchesKey 5 "k") = 0) ∧
    (((upsertKey (upsertKey [] 5 "k" "v1") 5 "k" "v2").countP
        (matchesKey 5 "k") = 1) ∧
      (∀ r ∈ upsertKey (upsertKey [] 5 "k" "v1") 5 "k" "v2",
        r.dataset_id = 5 → r.key = "k" → r.value = "v2")) :=
  ⟨by decide, upsert_twice_single_row [] (by decide)⟩

/-! ## Claim C4: the `raw_file_size` / `file_size` schema mismatch -/

/-- C4: `update_metadata` reads the attribute `raw_file_size` (routes.py 508,
527, 535) which is not among the declared fields of its input schema
`MetadataUpdate` (schemas.py 33-36, which declares `file_size`); consequently
every request — in particular one carrying a size value in the declared
field `file_size` — hits an `AttributeError` at the guard, and the
`raw_file_extension_size_of_all_files` branch never performs an update from
the supplied `file_size` value. -/
theorem size_update_field_mismatch :
    ("raw_file_size" ∉ metadataUpdateFields) ∧
    ("file_size" ∈ metadataUpdateFields) ∧
    (∀ (store : List MetaRow) (u : MetadataUpdate),
      update_metadata store u
        = Except.error ("AttributeError: " ++ "raw_file_size")) := by
  refine ⟨by decide, by decide, ?_⟩
  intro store u
  rfl

/-! ## Claim C3: the optional-filter query construction -/

set_option maxRecDepth 8192 in
/-- C3 counterexample: with no filters supplied, `get_datasets`
(routes.py 368-379) does NOT return a query free of WHERE text: its base
query already carries the constant `WHERE 1=1` TRUE-wildcard clause (the
parameter list, however, is empty). -/
theorem no_filter_query_has_wildcard :
    (get_datasets_query none none
      = ("SELECT id, project_id, name FROM datasets WHERE 1=1", [])) ∧
    strContains (get_datasets_query none none).1 "WHERE 1=1" = true := by
  exact ⟨rfl, rfl⟩

set_option maxRecDepth 8192 in
/-- C3 amended: supplying no filters returns the base query unchanged with an
empty parameter list; each supplied filter appends exactly one equality
condition conjoined with `AND`/`WHERE`, with its value bound as a parameter,
in declared order; unsupplied filters append nothing.  However the
`get_datasets` base query itself always ends in the constant clause
`WHERE 1=1` (routes.py 368), so only `get_patients` (routes.py 303-315)
yields WHERE-free text in the unfiltered case. -/
theorem query_builder_amended :
    (get_datasets_query none none = (datasetsBaseQuery, [])) ∧
    (∀ pid did : Nat, get_datasets_query (some pid) (some did)
      = (datasetsBaseQuery ++ " AND project_id = %s" ++ " AND id = %s",
        [pid, did])) ∧
    (∀ pid : Nat, get_datasets_query (some pid) none
      = (datasetsBaseQuery ++ " AND project_id = %s", [pid])) ∧
    (∀ did : Nat, get_datasets_query none (some did)
      = (datasetsBaseQuery ++ " AND id = %s", [did])) ∧
    (get_patients_query none
      = (patientsBaseQuery ++ " GROUP BY p.id ORDER BY p.id", [])) ∧
    (∀ pid : Nat, get_patients_query (some pid)
      = (patientsBaseQuery ++ " WHERE p.project_id = %s"
          ++ " GROUP BY p.id ORDER BY p.id", [pid])) ∧
    strContains datasetsBaseQuery "WHERE 1=1" = true ∧
    strContains (get_patients_query none).1 "WHERE" = false := by
  refine ⟨rfl, fun pid did => rfl, fun pid => rfl, fun did => rfl, rfl,
    fun pid => rfl, rfl, rfl⟩

/-! ## Claim C8: the `file_type` validator -/

/-- C8: a `file_type` outside the allowed set ('raw', 'processed', 'summarised') is rejected
by the pure schema validator (schemas.py 110-115) — before any store
interaction, since the validator is a function of the value alone — with an
error message containing both the offending value and the rendered allowed
set; a value inside the set is returned unchanged. -/
theorem validate_file_type_spec (v : String) :
    (v ∉ allowedFileTypes →
      ∃ e, validate_file_type v = Except.error e ∧ occursIn v e ∧
        occursIn (pyStrListRepr allowedFileTypes) e) ∧
    (v ∈ allowedFileTypes → validate_file_type v = Except.ok v) := by
  constructor
  · intro h
    refine ⟨"file_type must be one of " ++ pyStrListRepr allowedFileTypes
      ++ ", got '" ++ v ++ "'", ?_, ?_, ?_⟩
    · unfold validate_file_type
      rw [if_pos h]
    · refine ⟨"file_type must be one of " ++ pyStrListRepr allowedFileTypes
        ++ ", got '", "'", ?_⟩
      simp [String.append_assoc]
    · refine ⟨"file_type must be one of ",
        ", got '" ++ v ++ "'", ?_⟩
      simp [String.append_assoc]
  · intro h
    unfold validate_file_type
    rw [if_neg (fun hn => hn h)]

/-- Witness for `validate_file_type_spec`: the rejected value `"pdf"` and the
accepted value `"raw"`. -/
theorem validate_file_type_spec_witness :
    (("pdf" : String) ∉ allowedFileTypes ∧
      ∃ e, validate_file_type "pdf" = Except.error e ∧ occursIn "pdf" e ∧
        occursIn (pyStrListRepr allowedFileTypes) e) ∧
    (("raw" : String) ∈ allowedFileTypes ∧
      validate_file_type "raw" = Except.ok "raw") :=
  ⟨⟨by decide, (validate_file_type_spec "pdf").1 (by decide)⟩,
    ⟨by decide, (validate_file_type_spec "raw").2 (by decide)⟩⟩

/-! ## Claim C9: not-found is distinct from store failure -/

/-- C9: when no dataset row matches `(dataset_id, project_id)`,
`get_dataset_with_metadata` (routes.py 399-435) surfaces the distinct 404
"Dataset not found" outcome; a store failure surfaces as a 500 "Database
error" with the underlying message; and the 404 outcome is never equal to a
re-wrapped 500 store-error outcome — the `except Error` clause does not
catch the `HTTPException`. -/
theorem not_found_distinct_from_store_error (datasets : List DatasetRowE)
    (meta : List MetaRow) (did pid : Nat)
    (h : findDataset datasets did pid = none) :
    (runDatasetHandler datasets meta did pid
      = HandlerOutcome.httpError 404 "Dataset not found") ∧
    (∀ (e : String) (fm : Except String (List MetaRow)),
      get_dataset_with_metadata (Except.error e) fm
        = HandlerOutcome.httpError 500 ("Database error: " ++ e)) ∧
    (∀ e : String, HandlerOutcome.httpError 404 "Dataset not found"
      ≠ HandlerOutcome.httpError 500 ("Database error: " ++ e)) := by
  refine ⟨?_, ?_, ?_⟩
  · unfold runDatasetHandler get_dataset_with_metadata datasetHandlerBody
    rw [h]
    rfl
  · intro e fm
    rfl
  · intro e hcontra
    injection hcontra with h1 h2
    exact absurd h1 (by decide)

/-- Witness for `not_found_distinct_from_store_error`: empty tables, so the
lookup of dataset 7 in project 3 finds nothing. -/
theorem not_found_distinct_witness :
    (findDataset [] 7 3 = none) ∧
    ((runDatasetHandler [] [] 7 3
        = HandlerOutcome.httpError 404 "Dataset not found") ∧
      (∀ (e : String) (fm : Except String (List MetaRow)),
        get_dataset_with_metadata (Except.error e) fm
          = HandlerOutcome.httpError 500 ("Database error: " ++ e)) ∧
      (∀ e : String, HandlerOutcome.httpError 404 "Dataset not found"
        ≠ HandlerOutcome.httpError 500 ("Database error: " ++ e))) :=
  ⟨rfl, not_found_distinct_from_store_error [] [] 7 3 rfl⟩

end Redmane
